import Mathlib

/-!
Shallow embedding of `track.go` (package webrtc): the `Track` media-track
abstraction with its inbound path (`Read`, `peek`, `ReadRTP`,
`determinePayloadType`), outbound path (`Write`, `WriteSample`, `WriteRTP`)
and constructor (`NewTrack`).  Concurrency is out of scope: every operation
is embedded as its sequential (single-caller, no interleaving) semantics,
which is the setting of all the claims verified below.  Collaborators
(senders, receiver, packetizer, the RTP marshalling library) are external to
`track.go` and are modelled as explicit records of functions / deterministic
streams, universally quantified in the theorems.
-/

namespace Webrtc

/-- Errors.  The named sentinel errors of the package plus a constructor for
errors produced by external collaborators (senders, the RTP library, the
receiver), identified by a code, and the aggregate error built by
`util.FlattenErrs`. -/
inductive Err where
  | errTrackLocalTrackRead : Err
  | errTrackLocalTrackWrite : Err
  | errTrackSSRCNewTrackZero : Err
  | ioErrClosedPipe : Err
  | external (code : Nat) : Err
  | flatten (errs : List Err) : Err

/-- An RTP header; only the payload-type field is inspected by `track.go`,
the rest of the header is abstracted as an uninterpreted tag so distinct
headers stay distinguishable. -/
structure RTPHeader where
  payloadType : Nat
  rest : Nat := 0
deriving DecidableEq

/-- An RTP packet: a header plus a payload byte sequence. -/
structure RTPPacket where
  header : RTPHeader
  payload : List Nat
deriving DecidableEq

/-- The external RTP marshalling library: `(&rtp.Packet{}).Unmarshal(b)`
either produces a structured packet from the bytes or fails.  It is a
collaborator of `track.go`, so the theorems quantify over it. -/
structure RTPLib where
  unmarshal : List Nat → Except Err RTPPacket

/-- A sender collaborator: `SendRTP(header, payload)` returns `(n, error)`;
`track.go` only inspects the error. -/
structure RTPSender where
  sendRTP : RTPHeader → List Nat → Except Err Nat

/-- Modelled from the spec: the `RTPReceiver` collaborator is not under
`src/`; per the spec its `readRTP(buffer, forTrack)` "blocks until a packet
for this track's identity arrives or fails", returning the raw bytes of one
RTP packet.  We model it as a deterministic queue of outcomes, each either
one packet's raw bytes or a failure; an exhausted queue stands for a stream
that has failed (blocking forever is outside the sequential model). -/
structure RTPReceiver where
  incoming : List (Except Err (List Nat))

/-- One step of the receiver: pop the next outcome, truncated to the
caller's buffer capacity `k` (`readRTP` copies into the supplied buffer). -/
def RTPReceiver.readRTP (r : RTPReceiver) (k : Nat) :
    Except Err (List Nat) × RTPReceiver :=
  match r.incoming with
  | [] => (.error (Err.external 0), r)
  | .error e :: rest => (.error e, ⟨rest⟩)
  | .ok d :: rest => (.ok (d.take k), ⟨rest⟩)

/-- The codec descriptor collaborator (`*RTPCodec`): only the fields
`track.go` reads.  The Go field `Type` is spelled `type'`. -/
structure RTPCodec where
  type' : Nat
  payloader : Nat
  clockRate : Nat
deriving DecidableEq

/-- The packetizer collaborator: `Packetize(data, samples)` yields an
ordered sequence of RTP packets.  Its construction parameters are recorded
so `NewTrack` can be checked to bind them; its packetisation behaviour is
external. -/
structure Packetizer where
  mtu : Nat
  payloadType : Nat
  ssrc : Nat
  payloader : Nat
  clockRate : Nat
  packetize : List Nat → Nat → List RTPPacket

/-- `rtpOutboundMTU` constant of `track.go`. -/
def rtpOutboundMTU : Nat := 1200

/-- `receiveMTU`: a package constant defined outside `track.go` (1460 in the
package); its exact value is irrelevant to every claim. -/
def receiveMTU : Nat := 1460

/-- Modelled from the spec: `rtp.NewPacketizer(mtu, payloadType, ssrc,
payloader, sequencer, clockRate)` is external (pion/rtp); it returns a
packetizer bound to those parameters.  Its packetisation function is
unspecified here and never evaluated by any claim. -/
def NewPacketizer (mtu payloadType ssrc payloader clockRate : Nat) :
    Packetizer :=
  { mtu := mtu, payloadType := payloadType, ssrc := ssrc,
    payloader := payloader, clockRate := clockRate,
    packetize := fun _ _ => [] }

/-- The `Track` state: every field of the Go struct (the mutex is the
concurrency device and has no sequential content).  Byte slices are lists of
naturals; the `receiver` pointer is an `Option` of the receiver model. -/
structure Track where
  id : String
  payloadType : Nat
  kind : Nat
  label : String
  ssrc : Nat
  codec : RTPCodec
  rid : String
  packetizer : Packetizer
  receiver : Option RTPReceiver
  activeSenders : List RTPSender
  totalSenderCount : Nat
  peeked : Option (List Nat)

/-- Modelled from the spec: `util.FlattenErrs` lives outside `src/`; per the
spec, "if the collection is empty the call succeeds, otherwise it fails with
a combined error that preserves each underlying error's identity". -/
def FlattenErrs (errs : List Err) : Option Err :=
  if errs.isEmpty then none else some (Err.flatten errs)

/-- The fan-out loop of `WriteRTP`: call each sender's `SendRTP` in order,
appending the error (if any) to `writeErrs`; no early exit. -/
def collectWriteErrs (senders : List RTPSender) (h : RTPHeader)
    (payload : List Nat) : List Err :=
  match senders with
  | [] => []
  | s :: rest =>
    match s.sendRTP h payload with
    | .ok _ => collectWriteErrs rest h payload
    | .error e => e :: collectWriteErrs rest h payload

/-- `WriteRTP`: reject when a receiver is set; snapshot the sender list and
total count; fail with `io.ErrClosedPipe` when the total count is zero;
otherwise fan out to every active sender and flatten the collected errors.
`none` is Go's `nil` error. -/
def Track.WriteRTP (t : Track) (p : RTPPacket) : Option Err :=
  if t.receiver.isSome then
    some Err.errTrackLocalTrackWrite
  else
    let senders := t.activeSenders
    let totalSenderCount := t.totalSenderCount
    if totalSenderCount = 0 then
      some Err.ioErrClosedPipe
    else
      FlattenErrs (collectWriteErrs senders p.header p.payload)

/-- The senders whose `SendRTP` is invoked by a `WriteRTP` call: none on
either early return, and exactly the snapshotted active-sender list when the
fan-out loop runs (the loop body calls `s.SendRTP` once per element). -/
def Track.writeRTPSendersInvoked (t : Track) (_p : RTPPacket) :
    List RTPSender :=
  if t.receiver.isSome then []
  else if t.totalSenderCount = 0 then []
  else t.activeSenders

/-- The error component of a sender result. -/
def errOf (r : Except Err Nat) : Option Err :=
  match r with
  | .ok _ => none
  | .error e => some e

/-- `Read`: under the gate `totalSenderCount != 0 || receiver == nil` fail
with the wrong-mode error; else claim a previously peeked packet if one is
buffered (copying at most `k` bytes, `k` the caller's buffer capacity),
else delegate to the receiver's `readRTP`.  Sequentially the claimed value
is never `nil` after a non-`nil` check, so the Go fall-through to a live
read after a lost steal race does not arise.  The result is the bytes
written into the buffer (`n` is their length; an error carries `n = 0`)
together with the updated track. -/
def Track.Read (t : Track) (k : Nat) : Except Err (List Nat) × Track :=
  match t.receiver with
  | none => (.error Err.errTrackLocalTrackRead, t)
  | some r =>
    if t.totalSenderCount ≠ 0 then
      (.error Err.errTrackLocalTrackRead, t)
    else
      match t.peeked with
      | some data => (.ok (data.take k), { t with peeked := none })
      | none =>
        ((r.readRTP k).1, { t with receiver := some (r.readRTP k).2 })

/-- The `n` returned by a read: the number of bytes delivered, `0` on
error. -/
def readN (r : Except Err (List Nat)) : Nat :=
  match r with
  | .ok bs => bs.length
  | .error _ => 0

/-- `peek`: `Read`, then store a private copy of exactly the returned bytes
as the new `peeked` value; errors propagate without touching `peeked`. -/
def Track.peek (t : Track) (k : Nat) : Except Err (List Nat) × Track :=
  match t.Read k with
  | (.error e, t1) => (.error e, t1)
  | (.ok bs, t1) => (.ok bs, { t1 with peeked := some bs })

/-- `ReadRTP`: `Read` into a `receiveMTU`-sized buffer, then unmarshal
`b[:i]`; either failure propagates. -/
def Track.ReadRTP (t : Track) (lib : RTPLib) :
    Except Err RTPPacket × Track :=
  match t.Read receiveMTU with
  | (.error e, t1) => (.error e, t1)
  | (.ok bs, t1) =>
    match lib.unmarshal bs with
    | .error e => (.error e, t1)
    | .ok p => (.ok p, t1)

/-- `Write`: unmarshal the input bytes as one RTP packet, forward via
`WriteRTP`, and on success return the original byte count `len(b)`.  Either
failure yields `(0, err)`.  (`WriteRTP` only reads the track's fields, so no
updated track is produced.) -/
def Track.Write (t : Track) (lib : RTPLib) (b : List Nat) :
    Nat × Option Err :=
  match lib.unmarshal b with
  | .error e => (0, some e)
  | .ok packet =>
    match t.WriteRTP packet with
    | some e => (0, some e)
    | none => (b.length, none)

/-- The senders invoked by a `Write` call: none when unmarshalling fails
(`WriteRTP` is never reached), otherwise those of the inner `WriteRTP`. -/
def Track.writeSendersInvoked (t : Track) (lib : RTPLib) (b : List Nat) :
    List RTPSender :=
  match lib.unmarshal b with
  | .error _ => []
  | .ok packet => t.writeRTPSendersInvoked packet

/-- A media sample (`media.Sample`): only the fields `track.go` reads. -/
structure Sample where
  data : List Nat
  samples : Nat

/-- The loop of `WriteSample`: write each packet in order, returning the
first `WriteRTP` error and skipping the rest. -/
def writeAll (t : Track) (ps : List RTPPacket) : Option Err :=
  match ps with
  | [] => none
  | p :: rest =>
    match t.WriteRTP p with
    | some e => some e
    | none => writeAll t rest

/-- The packets for which the loop of `WriteSample` actually invokes
`WriteRTP`: everything up to and including the first failing packet. -/
def writeAllAttempted (t : Track) (ps : List RTPPacket) : List RTPPacket :=
  match ps with
  | [] => []
  | p :: rest =>
    match t.WriteRTP p with
    | some _ => [p]
    | none => p :: writeAllAttempted t rest

/-- `WriteSample`: packetize the sample, then `WriteRTP` each packet in the
packetizer's order, fail-fast. -/
def Track.WriteSample (t : Track) (s : Sample) : Option Err :=
  writeAll t (t.packetizer.packetize s.data s.samples)

/-- The packets a `WriteSample` call passes to `WriteRTP`. -/
def Track.writeSampleAttempted (t : Track) (s : Sample) : List RTPPacket :=
  writeAllAttempted t (t.packetizer.packetize s.data s.samples)

/-- `NewTrack`: reject a zero SSRC, otherwise build the packetizer bound to
the fixed outbound MTU, the supplied payload type / SSRC / codec payloader
and clock rate, and return a track whose remaining fields are Go zero
values (`rid = ""`, nil receiver, nil sender slice, zero sender count, nil
peeked). -/
def NewTrack (payloadType : Nat) (ssrc : Nat) (id label : String)
    (codec : RTPCodec) : Except Err Track :=
  if ssrc = 0 then
    .error Err.errTrackSSRCNewTrackZero
  else
    .ok
      { id := id
        payloadType := payloadType
        kind := codec.type'
        label := label
        ssrc := ssrc
        codec := codec
        rid := ""
        packetizer :=
          NewPacketizer rtpOutboundMTU payloadType ssrc codec.payloader
            codec.clockRate
        receiver := none
        activeSenders := []
        totalSenderCount := 0
        peeked := none }

/-- `determinePayloadType`: peek one packet into a `receiveMTU`-sized
buffer, unmarshal `b[:n]`, and on success set `payloadType` from the
packet's header field; either failure propagates and leaves `payloadType`
as it was (though the peek's own state effects remain). -/
def Track.determinePayloadType (t : Track) (lib : RTPLib) :
    Option Err × Track :=
  match t.peek receiveMTU with
  | (.error e, t1) => (some e, t1)
  | (.ok bs, t1) =>
    match lib.unmarshal bs with
    | .error e => (some e, t1)
    | .ok r => (none, { t1 with payloadType := r.header.payloadType })

theorem collectWriteErrs_eq_filterMap (senders : List RTPSender)
    (h : RTPHeader) (payload : List Nat) :
    collectWriteErrs senders h payload =
      (senders.map (fun s => s.sendRTP h payload)).filterMap errOf := by
  induction senders with
  | nil => rfl
  | cons s rest ih =>
    simp only [collectWriteErrs, List.map_cons, List.filterMap_cons]
    cases hs : s.sendRTP h payload <;> simp [errOf, ih]

theorem collectWriteErrs_nil_iff (senders : List RTPSender)
    (h : RTPHeader) (payload : List Nat) :
    collectWriteErrs senders h payload = [] ↔
      ∀ s ∈ senders, ∀ e, s.sendRTP h payload ≠ .error e := by
  induction senders with
  | nil => simp [collectWriteErrs]
  | cons s rest ih =>
    simp only [collectWriteErrs]
    cases hs : s.sendRTP h payload with
    | ok n =>
      simp only [List.mem_cons]
      constructor
      · intro hnil s' hs' e
        rcases hs' with rfl | hs'
        · simp [hs]
        · exact (ih.mp hnil) s' hs' e
      · intro hall
        exact ih.mpr (fun s' hs' e => hall s' (Or.inr hs') e)
    | error e =>
      simp only [List.cons_ne_nil, false_iff]
      intro hall
      exact (hall s (List.mem_cons_self s rest) e) hs

theorem FlattenErrs_eq_none_iff (errs : List Err) :
    FlattenErrs errs = none ↔ errs = [] := by
  cases errs <;> simp [FlattenErrs]

theorem FlattenErrs_eq_some (errs : List Err) (e : Err)
    (h : FlattenErrs errs = some e) : e = Err.flatten errs := by
  cases errs with
  | nil => simp [FlattenErrs] at h
  | cons a as =>
    simp only [FlattenErrs, List.isEmpty_cons, if_false, Bool.false_eq_true,
      Option.some.injEq] at h
    exact h.symm

theorem mem_collectWriteErrs (senders : List RTPSender) (h : RTPHeader)
    (payload : List Nat) (s : RTPSender) (hs : s ∈ senders) (e : Err)
    (hse : s.sendRTP h payload = .error e) :
    e ∈ collectWriteErrs senders h payload := by
  rw [collectWriteErrs_eq_filterMap]
  exact List.mem_filterMap.mpr ⟨.error e, List.mem_map.mpr ⟨s, hs, hse⟩, rfl⟩

/-- C1: for a `WriteRTP` call on a track with a nil receiver and
`totalSenderCount > 0`, (i) the invoked senders are exactly the snapshotted
active-sender list; (ii) the collected errors are the error components of
invoking every sender exactly once, in order, with no short-circuiting;
(iii) the call succeeds iff no sender returned an error; (iv) on failure the
result is the aggregate of the collected errors and every individual
sender's error is recoverable from it. -/
theorem writeRTP_fanout (t : Track) (p : RTPPacket)
    (hr : t.receiver = none) (hc : 0 < t.totalSenderCount) :
    t.writeRTPSendersInvoked p = t.activeSenders ∧
    collectWriteErrs t.activeSenders p.header p.payload =
      (t.activeSenders.map fun s => s.sendRTP p.header p.payload).filterMap
        errOf ∧
    (t.WriteRTP p = none ↔
      ∀ s ∈ t.activeSenders, ∀ e, s.sendRTP p.header p.payload ≠ .error e) ∧
    ∀ e', t.WriteRTP p = some e' →
      e' = Err.flatten (collectWriteErrs t.activeSenders p.header p.payload) ∧
      ∀ s ∈ t.activeSenders, ∀ e, s.sendRTP p.header p.payload = .error e →
        e ∈ collectWriteErrs t.activeSenders p.header p.payload := by
  have hr' : t.receiver.isSome = false := by simp [hr]
  have hc' : ¬ t.totalSenderCount = 0 := Nat.pos_iff_ne_zero.mp hc
  have hw : t.WriteRTP p =
      FlattenErrs (collectWriteErrs t.activeSenders p.header p.payload) := by
    simp [Track.WriteRTP, hr', hc']
  refine ⟨by simp [Track.writeRTPSendersInvoked, hr', hc'],
    collectWriteErrs_eq_filterMap _ _ _, ?_, ?_⟩
  · rw [hw, FlattenErrs_eq_none_iff]
    exact collectWriteErrs_nil_iff t.activeSenders p.header p.payload
  · intro e' he'
    rw [hw] at he'
    exact ⟨FlattenErrs_eq_some _ _ he',
      fun s hs e hse => mem_collectWriteErrs _ _ _ s hs e hse⟩

/-- A sender that always succeeds, for concrete witnesses. -/
def wSenderOk : RTPSender := ⟨fun _ _ => .ok 1⟩

/-- A sender that always fails with `external 7`, for concrete witnesses. -/
def wSenderBad : RTPSender := ⟨fun _ _ => .error (Err.external 7)⟩

/-- A concrete codec descriptor for witnesses. -/
def wCodec : RTPCodec := { type' := 2, payloader := 3, clockRate := 90000 }

/-- A concrete packetizer that produces no packets, for witnesses that never
packetize. -/
def wPacketizer : Packetizer :=
  { mtu := 0, payloadType := 0, ssrc := 0, payloader := 0, clockRate := 0,
    packetize := fun _ _ => [] }

/-- A concrete RTP packet for witnesses. -/
def wPacket : RTPPacket := { header := { payloadType := 96 }, payload := [1, 2, 3] }

/-- A concrete local-mode track with one succeeding and one failing
sender. -/
def wTrackLocal : Track :=
  { id := "id0", payloadType := 96, kind := 2, label := "lbl", ssrc := 42,
    codec := wCodec, rid := "", packetizer := wPacketizer, receiver := none,
    activeSenders := [wSenderOk, wSenderBad], totalSenderCount := 2,
    peeked := none }

/-- Witness for C1 at a concrete track: both hypotheses discharged, the
fan-out evaluates to the aggregate holding the failing sender's error. -/
theorem writeRTP_fanout_witness :
    wTrackLocal.WriteRTP wPacket = some (Err.flatten [Err.external 7]) ∧
    (wTrackLocal.WriteRTP wPacket = none ↔
      ∀ s ∈ wTrackLocal.activeSenders, ∀ e,
        s.sendRTP wPacket.header wPacket.payload ≠ .error e) :=
  ⟨rfl, (writeRTP_fanout wTrackLocal wPacket rfl (by decide)).2.2.1⟩

/-- C2: the gating of `WriteRTP` before any send.  A non-nil receiver fails
with the mode-violation error and invokes no sender; a nil receiver with
`totalSenderCount == 0` fails with the closed-pipe condition and invokes no
sender; a nil receiver with `totalSenderCount > 0` but an empty
active-sender list succeeds with no sender invoked (and the embedding of
`WriteRTP` produces no track update at all, so no state changes). -/
theorem writeRTP_gating (t : Track) (p : RTPPacket) :
    (∀ r, t.receiver = some r →
      t.WriteRTP p = some Err.errTrackLocalTrackWrite ∧
      t.writeRTPSendersInvoked p = []) ∧
    (t.receiver = none → t.totalSenderCount = 0 →
      t.WriteRTP p = some Err.ioErrClosedPipe ∧
      t.writeRTPSendersInvoked p = []) ∧
    (t.receiver = none → 0 < t.totalSenderCount → t.activeSenders = [] →
      t.WriteRTP p = none ∧ t.writeRTPSendersInvoked p = []) := by
  refine ⟨?_, ?_, ?_⟩
  · intro r hr
    have hr' : t.receiver.isSome = true := by simp [hr]
    exact ⟨by simp [Track.WriteRTP, hr'],
      by simp [Track.writeRTPSendersInvoked, hr']⟩
  · intro hr hc
    have hr' : t.receiver.isSome = false := by simp [hr]
    exact ⟨by simp [Track.WriteRTP, hr', hc],
      by simp [Track.writeRTPSendersInvoked, hr', hc]⟩
  · intro hr hc ha
    have hr' : t.receiver.isSome = false := by simp [hr]
    have hc' : ¬ t.totalSenderCount = 0 := Nat.pos_iff_ne_zero.mp hc
    exact ⟨by simp [Track.WriteRTP, hr', hc', ha, collectWriteErrs,
        FlattenErrs],
      by simp [Track.writeRTPSendersInvoked, hr', hc', ha]⟩

/-- A concrete deterministic receiver holding one three-byte packet. -/
def wReceiver : RTPReceiver := ⟨[.ok [10, 20, 30]]⟩

/-- A concrete remote-mode track backed by `wReceiver`. -/
def wTrackRemote : Track :=
  { id := "id1", payloadType := 0, kind := 2, label := "lbl", ssrc := 7,
    codec := wCodec, rid := "", packetizer := wPacketizer,
    receiver := some wReceiver, activeSenders := [], totalSenderCount := 0,
    peeked := none }

/-- A concrete track with a positive sender count but an empty
active-sender list. -/
def wTrackPaused : Track :=
  { id := "id2", payloadType := 96, kind := 2, label := "lbl", ssrc := 9,
    codec := wCodec, rid := "", packetizer := wPacketizer, receiver := none,
    activeSenders := [], totalSenderCount := 1, peeked := none }

/-- A concrete track with no senders configured at all. -/
def wTrackNoSenders : Track :=
  { id := "id3", payloadType := 96, kind := 2, label := "lbl", ssrc := 11,
    codec := wCodec, rid := "", packetizer := wPacketizer, receiver := none,
    activeSenders := [], totalSenderCount := 0, peeked := none }

/-- Witness for C2: all three gates exercised at concrete tracks. -/
theorem writeRTP_gating_witness :
    (wTrackRemote.WriteRTP wPacket = some Err.errTrackLocalTrackWrite ∧
      wTrackRemote.writeRTPSendersInvoked wPacket = []) ∧
    (wTrackNoSenders.WriteRTP wPacket = some Err.ioErrClosedPipe ∧
      wTrackNoSenders.writeRTPSendersInvoked wPacket = []) ∧
    (wTrackPaused.WriteRTP wPacket = none ∧
      wTrackPaused.writeRTPSendersInvoked wPacket = []) :=
  ⟨(writeRTP_gating wTrackRemote wPacket).1 wReceiver rfl,
    (writeRTP_gating wTrackNoSenders wPacket).2.1 rfl rfl,
    (writeRTP_gating wTrackPaused wPacket).2.2 rfl (by decide) rfl⟩

theorem Read_wrongMode_eq (t : Track) (k : Nat)
    (h : t.totalSenderCount ≠ 0 ∨ t.receiver = none) :
    t.Read k = (.error Err.errTrackLocalTrackRead, t) := by
  unfold Track.Read
  cases hr : t.receiver with
  | none => rfl
  | some r =>
    have hc : t.totalSenderCount ≠ 0 := by
      rcases h with h | h
      · exact h
      · rw [hr] at h; cases h
    simp [hc]

/-- C3: `Read` on a track with `totalSenderCount ≠ 0` or a nil receiver
fails immediately with the wrong-mode error, delivers `n = 0` bytes, and
leaves the track (receiver queue included) unchanged; `ReadRTP` therefore
fails identically. -/
theorem read_wrongMode (t : Track) (k : Nat) (lib : RTPLib)
    (h : t.totalSenderCount ≠ 0 ∨ t.receiver = none) :
    t.Read k = (.error Err.errTrackLocalTrackRead, t) ∧
    readN (t.Read k).1 = 0 ∧
    t.ReadRTP lib = (.error Err.errTrackLocalTrackRead, t) := by
  have hk := Read_wrongMode_eq t k h
  have hm := Read_wrongMode_eq t receiveMTU h
  refine ⟨hk, by rw [hk]; rfl, ?_⟩
  unfold Track.ReadRTP
  rw [hm]

/-- A concrete RTP library: unmarshalling fails on the empty byte string
and otherwise reads the payload type from the first byte. -/
def wLib : RTPLib :=
  ⟨fun bs =>
    match bs with
    | [] => .error (Err.external 1)
    | c :: rest => .ok { header := { payloadType := c }, payload := rest }⟩

/-- Witness for C3 at a concrete send-configured track. -/
theorem read_wrongMode_witness :
    wTrackLocal.Read 10 = (.error Err.errTrackLocalTrackRead, wTrackLocal) ∧
    readN (wTrackLocal.Read 10).1 = 0 ∧
    wTrackLocal.ReadRTP wLib =
      (.error Err.errTrackLocalTrackRead, wTrackLocal) :=
  read_wrongMode wTrackLocal 10 wLib (Or.inl (by decide))

/-- C4: `NewTrack` with `ssrc = 0` fails with the construction error; with
any non-zero `ssrc` it succeeds and the track carries exactly the supplied
ssrc, payload type, codec and the codec's media type as its kind, with a
nil receiver and zero senders attached. -/
theorem newTrack_spec (payloadType ssrc : Nat) (id label : String)
    (codec : RTPCodec) :
    (ssrc = 0 →
      NewTrack payloadType ssrc id label codec =
        .error Err.errTrackSSRCNewTrackZero) ∧
    (ssrc ≠ 0 →
      ∃ t, NewTrack payloadType ssrc id label codec = .ok t ∧
        t.ssrc = ssrc ∧ t.payloadType = payloadType ∧
        t.kind = codec.type' ∧ t.codec = codec ∧ t.id = id ∧
        t.label = label ∧ t.receiver = none ∧ t.activeSenders = [] ∧
        t.totalSenderCount = 0 ∧ t.peeked = none) := by
  constructor
  · intro h
    simp [NewTrack, h]
  · intro h
    simp only [NewTrack, if_neg h]
    exact ⟨_, rfl, rfl, rfl, rfl, rfl, rfl, rfl, rfl, rfl, rfl, rfl⟩

/-- Witness for C4: both branches at concrete SSRCs 0 and 5. -/
theorem newTrack_spec_witness :
    NewTrack 96 0 "a" "b" wCodec = .error Err.errTrackSSRCNewTrackZero ∧
    ∃ t, NewTrack 96 5 "a" "b" wCodec = .ok t ∧
      t.ssrc = 5 ∧ t.payloadType = 96 ∧ t.kind = wCodec.type' ∧
      t.codec = wCodec ∧ t.id = "a" ∧ t.label = "b" ∧ t.receiver = none ∧
      t.activeSenders = [] ∧ t.totalSenderCount = 0 ∧ t.peeked = none :=
  ⟨(newTrack_spec 96 0 "a" "b" wCodec).1 rfl,
    (newTrack_spec 96 5 "a" "b" wCodec).2 (by decide)⟩

theorem writeAll_ok (t : Track) (ps : List RTPPacket)
    (h : ∀ p ∈ ps, t.WriteRTP p = none) :
    writeAll t ps = none ∧ writeAllAttempted t ps = ps := by
  induction ps with
  | nil => exact ⟨rfl, rfl⟩
  | cons p rest ih =>
    have hp := h p (List.mem_cons_self p rest)
    have hrest := ih fun q hq => h q (List.mem_cons_of_mem p hq)
    constructor <;>
      simp [writeAll, writeAllAttempted, hp, hrest.1, hrest.2]

theorem writeAll_firstError (t : Track) (pre : List RTPPacket)
    (p : RTPPacket) (post : List RTPPacket) (e : Err)
    (hpre : ∀ q ∈ pre, t.WriteRTP q = none) (hp : t.WriteRTP p = some e) :
    writeAll t (pre ++ p :: post) = some e ∧
    writeAllAttempted t (pre ++ p :: post) = pre ++ [p] := by
  induction pre with
  | nil => constructor <;> simp [writeAll, writeAllAttempted, hp]
  | cons q rest ih =>
    have hq := hpre q (List.mem_cons_self q rest)
    have hrest := ih fun q' hq' => hpre q' (List.mem_cons_of_mem q hq')
    constructor <;>
      simp [writeAll, writeAllAttempted, hq, hrest.1, hrest.2]

/-- C5: `WriteSample` writes the packetizer's packets in order via
`WriteRTP`, fail-fast: if every `WriteRTP` succeeds it succeeds and every
packet is written; at the first failing packet it returns exactly that
`WriteRTP` error and the packets after it are never passed to
`WriteRTP`. -/
theorem writeSample_failFast (t : Track) (s : Sample) :
    ((∀ p ∈ t.packetizer.packetize s.data s.samples, t.WriteRTP p = none) →
      t.WriteSample s = none ∧
      t.writeSampleAttempted s = t.packetizer.packetize s.data s.samples) ∧
    ∀ pre p post e,
      t.packetizer.packetize s.data s.samples = pre ++ p :: post →
      (∀ q ∈ pre, t.WriteRTP q = none) → t.WriteRTP p = some e →
      t.WriteSample s = some e ∧ t.writeSampleAttempted s = pre ++ [p] := by
  constructor
  · intro h
    exact writeAll_ok t _ h
  · intro pre p post e hps hpre hp
    have h := writeAll_firstError t pre p post e hpre hp
    unfold Track.WriteSample Track.writeSampleAttempted
    rw [hps]
    exact h

/-- Three concrete packets distinguished by their header tags. -/
def wP1 : RTPPacket := { header := { payloadType := 96, rest := 1 }, payload := [] }

/-- Second concrete packet; the selective witness sender fails on it. -/
def wP2 : RTPPacket := { header := { payloadType := 96, rest := 2 }, payload := [] }

/-- Third concrete packet, never reached by the fail-fast witness. -/
def wP3 : RTPPacket := { header := { payloadType := 96, rest := 3 }, payload := [] }

/-- A sender failing exactly on packets whose header tag is 2. -/
def wSenderSel : RTPSender :=
  ⟨fun h _ => if h.rest = 2 then .error (Err.external 2) else .ok 0⟩

/-- A packetizer producing exactly `[wP1, wP2, wP3]`. -/
def wPacketizer3 : Packetizer :=
  { mtu := 0, payloadType := 0, ssrc := 0, payloader := 0, clockRate := 0,
    packetize := fun _ _ => [wP1, wP2, wP3] }

/-- A local track whose packetizer yields `[wP1, wP2, wP3]` and whose sole
sender fails on `wP2`. -/
def wTrackSample : Track :=
  { id := "id4", payloadType := 96, kind := 2, label := "lbl", ssrc := 13,
    codec := wCodec, rid := "", packetizer := wPacketizer3, receiver := none,
    activeSenders := [wSenderSel], totalSenderCount := 1, peeked := none }

/-- A concrete media sample. -/
def wSample : Sample := { data := [9, 9], samples := 1 }

/-- Witness for C5: with packets `[wP1, wP2, wP3]` and a sender failing on
`wP2`, `WriteSample` attempts `wP1` and `wP2` only and returns the `wP2`
failure. -/
theorem writeSample_failFast_witness :
    wTrackSample.WriteSample wSample = some (Err.flatten [Err.external 2]) ∧
    wTrackSample.writeSampleAttempted wSample = [wP1, wP2] :=
  (writeSample_failFast wTrackSample wSample).2 [wP1] wP2 [wP3]
    (Err.flatten [Err.external 2]) rfl
    (fun q hq => by
      have hq1 : q = wP1 := List.mem_singleton.mp hq
      subst hq1
      rfl)
    rfl

/-- C6: `Write` unmarshals the input and forwards it via `WriteRTP`.  An
unmarshal failure yields `(0, that error)` with no sender invoked; a
`WriteRTP` failure yields `(0, that error)`; on success the result is
exactly `(len b, nil)`, the original input length. -/
theorem write_contract (t : Track) (lib : RTPLib) (b : List Nat) :
    (∀ e, lib.unmarshal b = .error e →
      t.Write lib b = (0, some e) ∧ t.writeSendersInvoked lib b = []) ∧
    ∀ p, lib.unmarshal b = .ok p →
      (∀ e, t.WriteRTP p = some e → t.Write lib b = (0, some e)) ∧
      (t.WriteRTP p = none → t.Write lib b = (b.length, none)) := by
  constructor
  · intro e he
    constructor <;> simp [Track.Write, Track.writeSendersInvoked, he]
  · intro p hp
    constructor
    · intro e he
      simp [Track.Write, hp, he]
    · intro hn
      simp [Track.Write, hp, hn]

/-- Witness for C6: the unmarshal-failure branch on the empty input and the
success branch returning the input length at a concrete track and
library. -/
theorem write_contract_witness :
    (wTrackLocal.Write wLib [] = (0, some (Err.external 1)) ∧
      wTrackLocal.writeSendersInvoked wLib [] = []) ∧
    wTrackPaused.Write wLib [5, 6] = (2, none) :=
  ⟨(write_contract wTrackLocal wLib []).1 (Err.external 1) rfl,
    ((write_contract wTrackPaused wLib [5, 6]).2
        { header := { payloadType := 5 }, payload := [6] } rfl).2 rfl⟩

theorem Read_snd_payloadType (t : Track) (k : Nat) :
    (t.Read k).2.payloadType = t.payloadType := by
  unfold Track.Read
  cases hr : t.receiver with
  | none => rfl
  | some r =>
    by_cases hc : t.totalSenderCount ≠ 0
    · simp [hc]
    · cases hp : t.peeked with
      | some data => simp [hc, hp]
      | none => simp [hc, hp]

theorem peek_snd_payloadType (t : Track) (k : Nat) :
    (t.peek k).2.payloadType = t.payloadType := by
  unfold Track.peek
  cases h : t.Read k with
  | mk res t1 =>
    have h1 : t1.payloadType = t.payloadType := by
      have h2 := Read_snd_payloadType t k
      rw [h] at h2
      exact h2
    cases res with
    | error e => simpa using h1
    | ok bs => simpa using h1

theorem Read_ok_state (t : Track) (k : Nat) (bs : List Nat) (t' : Track)
    (h : t.Read k = (.ok bs, t')) :
    t'.receiver.isSome = true ∧ t'.totalSenderCount = 0 ∧
      t'.peeked = none := by
  unfold Track.Read at h
  cases hr : t.receiver with
  | none =>
    rw [hr] at h
    simp at h
  | some r =>
    rw [hr] at h
    by_cases hc : t.totalSenderCount = 0
    · simp only [hc, ne_eq, not_true_eq_false, if_false] at h
      cases hp : t.peeked with
      | some data =>
        rw [hp] at h
        simp only [Prod.mk.injEq, Except.ok.injEq] at h
        obtain ⟨hbs, ht'⟩ := h
        subst ht'
        simp [hr, hc]
      | none =>
        rw [hp] at h
        simp only [Prod.mk.injEq] at h
        obtain ⟨hbs, ht'⟩ := h
        subst ht'
        simp [hc, hp]
    · simp [hc] at h

theorem peek_ok (t : Track) (k : Nat) (bs : List Nat) (t1 : Track)
    (h : t.peek k = (.ok bs, t1)) :
    ∃ t', t.Read k = (.ok bs, t') ∧
      t1 = { t' with peeked := some bs } := by
  unfold Track.peek at h
  cases hr : t.Read k with
  | mk res t' =>
    rw [hr] at h
    cases res with
    | error e => simp at h
    | ok cs =>
      simp only [Prod.mk.injEq, Except.ok.injEq] at h
      obtain ⟨h1, h2⟩ := h
      subst h1
      subst h2
      exact ⟨t', rfl, rfl⟩

theorem Read_of_peeked (t : Track) (k : Nat) (data : List Nat)
    (hr : t.receiver.isSome = true) (hs : t.totalSenderCount = 0)
    (hp : t.peeked = some data) :
    t.Read k = (.ok (data.take k), { t with peeked := none }) := by
  obtain ⟨r, hr'⟩ := Option.isSome_iff_exists.mp hr
  unfold Track.Read
  rw [hr']
  simp [hs, hp]

theorem determinePayloadType_eq_of_peek_ok (t : Track) (lib : RTPLib)
    (bs : List Nat) (t1 : Track)
    (hp : t.peek receiveMTU = (.ok bs, t1)) :
    t.determinePayloadType lib =
      match lib.unmarshal bs with
      | .error e => (some e, t1)
      | .ok r => (none, { t1 with payloadType := r.header.payloadType }) := by
  unfold Track.determinePayloadType
  rw [hp]

theorem determinePayloadType_eq_of_peek_error (t : Track) (lib : RTPLib)
    (e : Err) (t1 : Track) (hp : t.peek receiveMTU = (.error e, t1)) :
    t.determinePayloadType lib = (some e, t1) := by
  unfold Track.determinePayloadType
  rw [hp]

/-- C7: `determinePayloadType` with a successful peek and a successful
unmarshal sets `payloadType` to the deserialized header's payload-type
field and succeeds; if the peek or the unmarshal fails it returns that
error and `payloadType` is unchanged from its value before the call. -/
theorem determinePayloadType_spec (t : Track) (lib : RTPLib) :
    (∀ bs t1 r, t.peek receiveMTU = (.ok bs, t1) →
      lib.unmarshal bs = .ok r →
      t.determinePayloadType lib =
        (none, { t1 with payloadType := r.header.payloadType })) ∧
    (∀ bs t1 e, t.peek receiveMTU = (.ok bs, t1) →
      lib.unmarshal bs = .error e →
      t.determinePayloadType lib = (some e, t1) ∧
      t1.payloadType = t.payloadType) ∧
    (∀ e t1, t.peek receiveMTU = (.error e, t1) →
      t.determinePayloadType lib = (some e, t1) ∧
      t1.payloadType = t.payloadType) := by
  refine ⟨?_, ?_, ?_⟩
  · intro bs t1 r hp hu
    rw [determinePayloadType_eq_of_peek_ok t lib bs t1 hp, hu]
  · intro bs t1 e hp hu
    refine ⟨by rw [determinePayloadType_eq_of_peek_ok t lib bs t1 hp, hu], ?_⟩
    have h := peek_snd_payloadType t receiveMTU
    rw [hp] at h
    exact h
  · intro e t1 hp
    refine ⟨determinePayloadType_eq_of_peek_error t lib e t1 hp, ?_⟩
    have h := peek_snd_payloadType t receiveMTU
    rw [hp] at h
    exact h

/-- The state of `wTrackRemote` after one successful peek: the receiver
queue is drained and the peeked slot holds the packet's bytes. -/
def wTrackPeeked : Track :=
  { wTrackRemote with receiver := some ⟨[]⟩, peeked := some [10, 20, 30] }

/-- Witness for C7: on the concrete remote track, peek yields
`[10, 20, 30]`, `wLib` unmarshals it with payload type 10, and
`determinePayloadType` installs 10. -/
theorem determinePayloadType_spec_witness :
    wTrackRemote.determinePayloadType wLib =
      (none, { wTrackPeeked with payloadType := 10 }) :=
  (determinePayloadType_spec wTrackRemote wLib).1 [10, 20, 30] wTrackPeeked
    { header := { payloadType := 10 }, payload := [20, 30] } rfl rfl

/-- C8: peek-then-Read idempotence, sequentially.  A successful peek stores
exactly the returned bytes in the peeked slot, and the next `Read` with a
buffer at least that long returns the same bytes with a nil error, clearing
the slot but leaving the receiver untouched (no second receiver
invocation). -/
theorem peek_then_read (t : Track) (k k2 : Nat) (bs : List Nat) (t1 : Track)
    (hpeek : t.peek k = (.ok bs, t1)) (hk2 : bs.length ≤ k2) :
    t1.peeked = some bs ∧
    t1.Read k2 = (.ok bs, { t1 with peeked := none }) ∧
    ({ t1 with peeked := none } : Track).receiver = t1.receiver := by
  obtain ⟨t', hread, ht1⟩ := peek_ok t k bs t1 hpeek
  obtain ⟨hrec, hcnt, hpk⟩ := Read_ok_state t k bs t' hread
  subst ht1
  refine ⟨rfl, ?_, rfl⟩
  have h := Read_of_peeked { t' with peeked := some bs } k2 bs hrec hcnt rfl
  rwa [List.take_of_length_le hk2] at h

/-- Witness for C8 on the concrete remote track: after peeking
`[10, 20, 30]`, reading with a 3-byte buffer returns the same bytes and
leaves the receiver alone. -/
theorem peek_then_read_witness :
    wTrackPeeked.peeked = some [10, 20, 30] ∧
    wTrackPeeked.Read 3 =
      (.ok [10, 20, 30], { wTrackPeeked with peeked := none }) ∧
    ({ wTrackPeeked with peeked := none } : Track).receiver =
      wTrackPeeked.receiver :=
  peek_then_read wTrackRemote receiveMTU 3 [10, 20, 30] wTrackPeeked rfl
    (by decide)

/-- C9: a sequential `Read` that claims a buffered peeked packet of length
`m` into a buffer of capacity `k` returns the packet truncated to `k`
bytes with a nil error and `n = min k m`, clears the peeked slot, and gives
no indication of the dropped `m - k` bytes when `k < m`. -/
theorem read_claims_peeked (t : Track) (r : RTPReceiver) (data : List Nat)
    (k : Nat) (hr : t.receiver = some r) (hs : t.totalSenderCount = 0)
    (hp : t.peeked = some data) :
    t.Read k = (.ok (data.take k), { t with peeked := none }) ∧
    readN (t.Read k).1 = min k data.length := by
  have h := Read_of_peeked t k data (by simp [hr]) hs hp
  refine ⟨h, ?_⟩
  rw [h]
  simp [readN]

/-- A remote track holding a five-byte peeked packet, for the truncation
witness. -/
def wTrackPeeked5 : Track :=
  { wTrackRemote with peeked := some [1, 2, 3, 4, 5] }

/-- Witness for C9: claiming a 5-byte peeked packet into a 2-byte buffer
returns `[1, 2]` with `n = 2 = min 2 5` and a nil error. -/
theorem read_claims_peeked_witness :
    wTrackPeeked5.Read 2 =
      (.ok ([1, 2, 3, 4, 5].take 2), { wTrackPeeked5 with peeked := none }) ∧
    readN (wTrackPeeked5.Read 2).1 = min 2 5 :=
  read_claims_peeked wTrackPeeked5 wReceiver [1, 2, 3, 4, 5] 2 rfl rfl rfl

/-- C10: when `determinePayloadType`'s peek succeeds with bytes `bs` but
the unmarshal fails, the call returns the unmarshal error while the peeked
slot still holds `bs` and `payloadType` is untouched; the next sequential
`Read` (with a large enough buffer) therefore returns those same bytes from
the slot instead of performing a live receiver read. -/
theorem determinePayloadType_errorPath (t : Track) (lib : RTPLib)
    (bs : List Nat) (t1 : Track) (e : Err)
    (hpeek : t.peek receiveMTU = (.ok bs, t1))
    (hum : lib.unmarshal bs = .error e) :
    t.determinePayloadType lib = (some e, t1) ∧
    t1.peeked = some bs ∧
    t1.payloadType = t.payloadType ∧
    ∀ k, bs.length ≤ k →
      t1.Read k = (.ok bs, { t1 with peeked := none }) := by
  obtain ⟨t', hread, ht1⟩ := peek_ok t receiveMTU bs t1 hpeek
  obtain ⟨hrec, hcnt, hpk⟩ := Read_ok_state t receiveMTU bs t' hread
  have hpt : t1.payloadType = t.payloadType := by
    have h := peek_snd_payloadType t receiveMTU
    rw [hpeek] at h
    exact h
  subst ht1
  refine ⟨by rw [determinePayloadType_eq_of_peek_ok t lib bs _ hpeek, hum],
    rfl, hpt, ?_⟩
  intro k hk
  have h := Read_of_peeked { t' with peeked := some bs } k bs hrec hcnt rfl
  rwa [List.take_of_length_le hk] at h

/-- A library that rejects every byte string, for the C10 witness. -/
def wLibBad : RTPLib := ⟨fun _ => .error (Err.external 3)⟩

/-- Witness for C10: with an always-failing unmarshal, the error path
leaves the undeserializable bytes buffered and the next read returns
them. -/
theorem determinePayloadType_errorPath_witness :
    wTrackRemote.determinePayloadType wLibBad =
      (some (Err.external 3), wTrackPeeked) ∧
    wTrackPeeked.peeked = some [10, 20, 30] ∧
    wTrackPeeked.payloadType = wTrackRemote.payloadType ∧
    ∀ k, [10, 20, 30].length ≤ k →
      wTrackPeeked.Read k =
        (.ok [10, 20, 30], { wTrackPeeked with peeked := none }) :=
  determinePayloadType_errorPath wTrackRemote wLibBad [10, 20, 30]
    wTrackPeeked (Err.external 3) rfl rfl

end Webrtc
